import Mathlib

/-!
Verification of the obsidian-canvas-viewport plugin (src/main.ts).

The plugin persists and restores the camera state (pan `tx`/`ty` and zoom
`tZoom`) of an Obsidian canvas, keyed per device (or by the sentinel key
"global"), inside the canvas file's own JSON document.

We shallowly embed the JavaScript data and control flow:

* JSON values become the inductive `Json`; JavaScript objects are ordered
  association lists of fields, matching `JSON.parse`/`JSON.stringify`
  insertion-order semantics (keys are unique in any object produced by
  `JSON.parse`, and all operations below preserve key positions exactly as
  the in-place JavaScript mutations do).
* JavaScript `undefined` is modelled as `Option.none` at use sites
  (a missing field lookup yields `none`).
* Truthiness tests (`!x`, `x || null`, the `?.` optional chain) are modelled
  by `jsTruthy`, `orNull` and `optChain`.
* Numbers are modelled as `Int`; no claim depends on non-integral values.
* The `async`/`await` file plumbing is dropped: each store operation is a
  pure function from the parsed document (plus key/record arguments) to its
  result, with an explicit `wrote` flag where the claimwork needs to know
  whether `vault.modify` was called.
-/

set_option autoImplicit false

namespace CanvasViewport

/-- A JSON value. Objects are ordered lists of key/value fields, mirroring
    the insertion-order semantics of JavaScript objects. -/
inductive Json where
  | null
  | bool (b : Bool)
  | num (n : Int)
  | str (s : String)
  | arr (elems : List Json)
  | obj (fields : List (String × Json))

/-- `fields[k]` for a JavaScript object: first field with the given key
    (keys are unique in objects coming from `JSON.parse`). `none` models
    `undefined`. -/
def getField : List (String × Json) → String → Option Json
  | [], _ => none
  | (k, v) :: rest, key => if k == key then some v else getField rest key

/-- `fields[k] = v` for a JavaScript object: overwrite in place if the key
    exists (keeping its position, as JavaScript does), else append at the
    end (as JavaScript does for a fresh key). -/
def setField : List (String × Json) → String → Json → List (String × Json)
  | [], key, v => [(key, v)]
  | (k, w) :: rest, key, v =>
      if k == key then (k, v) :: rest else (k, w) :: setField rest key v

/-- `delete fields[k]` for a JavaScript object. -/
def removeField (fields : List (String × Json)) (key : String) :
    List (String × Json) :=
  fields.filter (fun p => p.1 != key)

/-- JavaScript truthiness of a JSON value: `null`, `false`, `0` and `""`
    are falsy; every object and array is truthy. -/
def jsTruthy : Json → Bool
  | .null => false
  | .bool b => b
  | .num n => n != 0
  | .str s => s != ""
  | .arr _ => true
  | .obj _ => true

/-- JavaScript property read `v[k]` for the string keys used by the plugin
    ("viewports" and viewport keys): a field lookup on an object, and
    `undefined` (`none`) on any non-object value. -/
def jsProp (v : Json) (k : String) : Option Json :=
  match v with
  | .obj fields => getField fields k
  | _ => none

/-- Optional chaining `a?.[k]` where `a` may already be `undefined`
    (`none`): `undefined` and `null` short-circuit to `undefined`. -/
def optChain (a : Option Json) (k : String) : Option Json :=
  match a with
  | none => none
  | some .null => none
  | some v => jsProp v k

/-- `x || null`, with both `undefined` and `null` results collapsed to
    `none`: keeps `x` when truthy, yields `none` otherwise. -/
def orNull (a : Option Json) : Option Json :=
  match a with
  | some v => if jsTruthy v then some v else none
  | none => none

/-- The camera record persisted per viewport key (src/main.ts lines
    203-207): pan translation `tx`/`ty` and zoom `tZoom`. -/
structure CameraPosition where
  tx : Int
  ty : Int
  tZoom : Int

/-- The JSON object literal written by `saveCurrentPosition`
    (src/main.ts lines 484-488): `{ tx: ..., ty: ..., tZoom: ... }`. -/
def encodeCamera (r : CameraPosition) : Json :=
  .obj [("tx", .num r.tx), ("ty", .num r.ty), ("tZoom", .num r.tZoom)]

/-- The entry stored for key `k`: `doc.viewports?.[k]` as an optional-chain
    read, `none` when the mapping or the entry is absent. -/
def vpEntry (doc : Json) (k : String) : Option Json :=
  optChain (jsProp doc "viewports") k

/-- `loadSavedPosition` (src/main.ts lines 547-566) on an already parsed
    document: `canvasData.viewports?.[viewportKey] || null`. No schema
    validation is performed on the stored value. -/
def loadSavedPosition (doc : Json) (key : String) : Option Json :=
  orNull (optChain (jsProp doc "viewports") key)

/-- Raw document text as the store sees it: either text that `JSON.parse`
    rejects, or text that parses to a `Json` value. -/
inductive DocText where
  | malformed (text : String)
  | wellFormed (doc : Json)

/-- `JSON.parse` on document text: throws (modelled as `.error`) on
    malformed text. -/
def parseJson : DocText → Except String Json
  | .malformed _ => .error "SyntaxError"
  | .wellFormed doc => .ok doc

/-- `loadSavedPosition` from raw text (src/main.ts lines 547-566): the
    surrounding `try`/`catch` turns a parse exception into `null`
    (logged, never re-thrown), so the function is total. -/
def loadSavedPositionText (t : DocText) (key : String) : Option Json :=
  match parseJson t with
  | .ok canvasData => loadSavedPosition canvasData key
  | .error _ => none

/-- `saveCurrentPosition` (src/main.ts lines 466-505) on an already parsed
    document, with the viewport key and the camera read from the live view
    passed as arguments. Mirrors:
    `if (!canvasData.viewports) canvasData.viewports = {};`
    `canvasData.viewports[viewportKey] = position;` then a whole-document
    write. `none` models the catch branch where no new document is
    persisted: a truthy non-object `viewports` (or a non-object document)
    cannot receive the property assignment (strict-mode `TypeError` on
    primitives; array expando properties are dropped by
    `JSON.stringify`). -/
def saveCurrentPosition (doc : Json) (key : String) (r : CameraPosition) :
    Option Json :=
  match doc with
  | .obj fields =>
    match getField fields "viewports" with
    | some (.obj vfields) =>
        some (.obj (setField fields "viewports"
          (.obj (setField vfields key (encodeCamera r)))))
    | some v =>
        if jsTruthy v then none
        else some (.obj (setField fields "viewports"
          (.obj [(key, encodeCamera r)])))
    | none =>
        some (.obj (setField fields "viewports"
          (.obj [(key, encodeCamera r)])))
  | _ => none

/-- Result of `deleteSavedPosition`: the boolean returned to the caller,
    the document state afterwards, and whether `vault.modify` was called. -/
structure DeleteResult where
  deleted : Bool
  doc : Json
  wrote : Bool

/-- `deleteSavedPosition` (src/main.ts lines 507-545) on an already parsed
    document. `if (!canvasData.viewports?.[viewportKey]) return false;`
    (no write); otherwise `delete canvasData.viewports[viewportKey]`,
    dropping the whole `viewports` field when it becomes empty
    (`Object.keys(...).length === 0`), then a whole-document write. -/
def deleteSavedPosition (doc : Json) (key : String) : DeleteResult :=
  match doc with
  | .obj fields =>
    match getField fields "viewports" with
    | some (.obj vfields) =>
      match getField vfields key with
      | some v =>
        if jsTruthy v then
          let vfields2 := removeField vfields key
          if vfields2.isEmpty then
            ⟨true, .obj (removeField fields "viewports"), true⟩
          else
            ⟨true, .obj (setField fields "viewports" (.obj vfields2)), true⟩
        else ⟨false, doc, false⟩
      | none => ⟨false, doc, false⟩
    | _ => ⟨false, doc, false⟩
  | _ => ⟨false, doc, false⟩

/-- A stored entry of the shape written by `saveCurrentPosition`:
    exactly the fields `tx`, `ty`, `tZoom`, each a number. -/
def isCameraJson : Json → Bool
  | .obj [("tx", .num _), ("ty", .num _), ("tZoom", .num _)] => true
  | _ => false

/-- Well-formedness of a parsed canvas document, following the data model:
    a JSON object whose optional `viewports` field, when present, is a
    mapping from viewport keys to camera records. -/
def wellFormedDoc : Json → Bool
  | .obj fields =>
    match getField fields "viewports" with
    | none => true
    | some (.obj vfields) => vfields.all (fun p => isCameraJson p.2)
    | some _ => false
  | _ => false

/-- The activated file delivered by the `file-open` event: its vault path
    and its extension. -/
structure TFile where
  path : String
  extension : String

/-- `file?.extension === 'canvas' && this.openCanvasFiles.includes(file.path)`
    (src/main.ts line 341), evaluated against the previously remembered
    open-canvas list. A `null` file short-circuits to `false`. -/
def wasAlreadyOpen (file : Option TFile) (openCanvasFiles : List String) :
    Bool :=
  match file with
  | some f => f.extension == "canvas" && openCanvasFiles.contains f.path
  | none => false

/-- Outcome of one `file-open` handler invocation: the replacement
    open-canvas list and whether `restoreViewport` was reached. -/
structure FileOpenResult where
  openCanvasFiles : List String
  restored : Bool

/-- The `file-open` handler (src/main.ts lines 337-361): computes
    `wasAlreadyOpen` against the remembered list, unconditionally replaces
    the list with the paths of the currently open canvas leaves, then
    skips (`if (!file || file.extension !== 'canvas' || wasAlreadyOpen)
    return;`) or restores. -/
def fileOpenHandler (file : Option TFile) (openCanvasFiles : List String)
    (currentCanvasPaths : List String) : FileOpenResult :=
  let wasOpen := wasAlreadyOpen file openCanvasFiles
  let newOpen := currentCanvasPaths
  match file with
  | none => ⟨newOpen, false⟩
  | some f =>
    if f.extension == "canvas" && !wasOpen then ⟨newOpen, true⟩
    else ⟨newOpen, false⟩

/-- The four canvas calls issued by the apply sequence inside the
    `requestAnimationFrame` callback (src/main.ts lines 451-454). -/
inductive ApplyStep where
  | zoomBy
  | panTo
  | markViewportChanged
  | requestFrame
  deriving DecidableEq

/-- The live canvas binding as the applier sees it: its current zoom, and
    which of the four calls throw on this particular canvas state (e.g. a
    missing method on a half-initialized canvas). -/
structure LiveCanvas where
  tZoom : Int
  raises : ApplyStep → Bool

/-- How the apply phase ends. `caughtNotice` is the catch branch at
    src/main.ts lines 458-461 (one-line notice, nothing propagates);
    `uncaught` is an exception leaving the animation-frame callback with no
    enclosing handler. -/
inductive ApplyOutcome where
  | applied
  | caughtNotice
  | uncaught (step : ApplyStep)
  deriving DecidableEq

/-- The animation-frame callback body (src/main.ts lines 450-457): runs
    `zoomBy(position.tZoom - canvas.tZoom)`, `panTo(position.tx,
    position.ty)`, `markViewportChanged()`, `requestFrame()` in order; the
    first call that throws abandons the rest, and since the callback runs
    in a later tick, the exception leaves the callback uncaught. -/
def runApplySequence (c : LiveCanvas) (r : CameraPosition) : ApplyOutcome :=
  let _zoomDelta := r.tZoom - c.tZoom
  if c.raises .zoomBy then .uncaught .zoomBy
  else if c.raises .panTo then .uncaught .panTo
  else if c.raises .markViewportChanged then .uncaught .markViewportChanged
  else if c.raises .requestFrame then .uncaught .requestFrame
  else .applied

/-- Whether `requestAnimationFrame(cb)` itself throws synchronously when
    handed a function callback: it does not; it only schedules `cb` and
    returns. -/
def scheduleRaises : Bool := false

/-- The apply phase of `restoreViewport` (src/main.ts lines 448-461). The
    `try` block wraps only the synchronous `requestAnimationFrame(...)`
    scheduling call, which returns before the callback runs, so the
    `catch` observes an exception only if the scheduling call itself
    throws. The callback then executes in the animation-frame tick with no
    enclosing handler; whatever `runApplySequence` throws propagates. The
    applier performs no `vault.modify`: it only reads the loaded record. -/
def restoreApplyOutcome (c : LiveCanvas) (r : CameraPosition) : ApplyOutcome :=
  if scheduleRaises then .caughtNotice
  else runApplySequence c r

/-- A canvas state on which the first apply call, `zoomBy`, throws. -/
def zoomByThrowingCanvas : LiveCanvas :=
  ⟨1, fun s => match s with | .zoomBy => true | _ => false⟩

/-! ### Association-list lemmas -/

theorem getField_setField_self (fs : List (String × Json)) (key : String)
    (v : Json) : getField (setField fs key v) key = some v := by
  induction fs with
  | nil => simp [setField, getField]
  | cons p rest ih =>
    obtain ⟨k0, w⟩ := p
    by_cases h : k0 = key
    · subst h; simp [setField, getField]
    · have hb : (k0 == key) = false := beq_eq_false_iff_ne.mpr h
      simp [setField, getField, hb, ih]

theorem getField_setField_ne (fs : List (String × Json)) (key k2 : String)
    (v : Json) (h : k2 ≠ key) :
    getField (setField fs key v) k2 = getField fs k2 := by
  have hb2 : (key == k2) = false := beq_eq_false_iff_ne.mpr (Ne.symm h)
  induction fs with
  | nil => simp [setField, getField, hb2]
  | cons p rest ih =>
    obtain ⟨k0, w⟩ := p
    by_cases h0 : k0 = key
    · subst h0; simp [setField, getField, hb2]
    · have hb : (k0 == key) = false := beq_eq_false_iff_ne.mpr h0
      by_cases h2 : k0 = k2
      · subst h2; simp [setField, getField, hb]
      · have hb3 : (k0 == k2) = false := beq_eq_false_iff_ne.mpr h2
        simp [setField, getField, hb, hb3, ih]

theorem getField_removeField_self (fs : List (String × Json)) (key : String) :
    getField (removeField fs key) key = none := by
  induction fs with
  | nil => simp [removeField, getField]
  | cons p rest ih =>
    obtain ⟨k0, w⟩ := p
    by_cases h : k0 = key
    · subst h
      simpa [removeField, getField, List.filter_cons, bne] using ih
    · have hb : (k0 == key) = false := beq_eq_false_iff_ne.mpr h
      simpa [removeField, getField, List.filter_cons, bne, hb] using ih

theorem getField_removeField_ne (fs : List (String × Json)) (key k2 : String)
    (h : k2 ≠ key) : getField (removeField fs key) k2 = getField fs k2 := by
  induction fs with
  | nil => simp [removeField, getField]
  | cons p rest ih =>
    obtain ⟨k0, w⟩ := p
    by_cases h0 : k0 = key
    · subst h0
      have hb3 : (k0 == k2) = false := beq_eq_false_iff_ne.mpr (fun e => h e.symm)
      simpa [removeField, getField, List.filter_cons, bne, hb3] using ih
    · have hb : (k0 == key) = false := beq_eq_false_iff_ne.mpr h0
      by_cases h2 : k0 = k2
      · subst h2; simp [removeField, getField, List.filter_cons, bne, hb]
      · have hb3 : (k0 == k2) = false := beq_eq_false_iff_ne.mpr h2
        simpa [removeField, getField, List.filter_cons, bne, hb, hb3] using ih

theorem getField_eq_none_of_removeField_nil (fs : List (String × Json))
    (key k2 : String) (hnil : removeField fs key = []) (h : k2 ≠ key) :
    getField fs k2 = none := by
  induction fs with
  | nil => simp [getField]
  | cons p rest ih =>
    obtain ⟨k0, w⟩ := p
    by_cases h0 : k0 = key
    · subst h0
      have hrest : removeField rest k0 = [] := by
        simpa [removeField, List.filter_cons, bne] using hnil
      have hb3 : (k0 == k2) = false := beq_eq_false_iff_ne.mpr (fun e => h e.symm)
      simp [getField, hb3, ih hrest]
    · exfalso
      have hb : (k0 == key) = false := beq_eq_false_iff_ne.mpr h0
      simp [removeField, List.filter_cons, bne, hb] at hnil

theorem jsTruthy_of_isCameraJson (v : Json) (h : isCameraJson v = true) :
    jsTruthy v = true := by
  cases v <;> simp_all [isCameraJson, jsTruthy]

/-! ### Open-event classifier -/

theorem fileOpenHandler_restored_iff (file : Option TFile)
    (prevOpen currentCanvasPaths : List String) :
    (fileOpenHandler file prevOpen currentCanvasPaths).restored = true ↔
      ∃ f, file = some f ∧ f.extension = "canvas" ∧ f.path ∉ prevOpen := by
  cases file with
  | none => simp [fileOpenHandler]
  | some f =>
    by_cases hext : f.extension = "canvas"
    · by_cases hmem : f.path ∈ prevOpen
      · simp [fileOpenHandler, wasAlreadyOpen, hext, hmem]
      · simp [fileOpenHandler, wasAlreadyOpen, hext, hmem]
    · have hb : (f.extension == "canvas") = false := beq_eq_false_iff_ne.mpr hext
      simp [fileOpenHandler, wasAlreadyOpen, hb, hext]

/-- Claim C1: an activation delivered to the `file-open` handler triggers
    viewport restoration iff the activated file is non-null, has extension
    `canvas`, and its path was not in the previously remembered
    open-canvas list; every other activation restores nothing. -/
theorem fileOpen_restores_iff_genuine (file : Option TFile)
    (prevOpen currentCanvasPaths : List String) :
    (fileOpenHandler file prevOpen currentCanvasPaths).restored = true ↔
      ∃ f, file = some f ∧ f.extension = "canvas" ∧ f.path ∉ prevOpen :=
  fileOpenHandler_restored_iff file prevOpen currentCanvasPaths

/-- Claim C8: after every `file-open` handler invocation the remembered
    open-canvas list equals the freshly recomputed list of open canvas
    paths, regardless of classification, and the restoration decision is a
    function of the previously remembered list alone (it does not depend
    on the freshly recomputed list that replaces it). -/
theorem fileOpen_openset_replaced (file : Option TFile)
    (prevOpen cur cur2 : List String) :
    (fileOpenHandler file prevOpen cur).openCanvasFiles = cur ∧
    (fileOpenHandler file prevOpen cur).restored =
      (fileOpenHandler file prevOpen cur2).restored ∧
    ((fileOpenHandler file prevOpen cur).restored = true ↔
      ∃ f, file = some f ∧ f.extension = "canvas" ∧ f.path ∉ prevOpen) := by
  refine ⟨?_, ?_, fileOpenHandler_restored_iff file prevOpen cur⟩
  · cases file with
    | none => rfl
    | some f =>
      simp only [fileOpenHandler]
      split <;> rfl
  · cases file with
    | none => rfl
    | some f =>
      simp only [fileOpenHandler]
      split <;> rfl

/-! ### Viewport store: load and save -/

/-- Claim C2: save-then-load round-trip. For every well-formed canvas
    document, key and record, saving the record under the key succeeds and
    loading under the same key from the saved document returns exactly the
    saved record. -/
theorem save_load_roundtrip (doc : Json) (K : String) (R : CameraPosition)
    (hwf : wellFormedDoc doc = true) :
    ∃ doc2, saveCurrentPosition doc K R = some doc2 ∧
      loadSavedPosition doc2 K = some (encodeCamera R) := by
  cases doc with
  | null => exact absurd hwf (by simp [wellFormedDoc])
  | bool b => exact absurd hwf (by simp [wellFormedDoc])
  | num n => exact absurd hwf (by simp [wellFormedDoc])
  | str s => exact absurd hwf (by simp [wellFormedDoc])
  | arr xs => exact absurd hwf (by simp [wellFormedDoc])
  | obj fields =>
    cases hv : getField fields "viewports" with
    | none =>
      refine ⟨.obj (setField fields "viewports"
        (.obj [(K, encodeCamera R)])), ?_, ?_⟩
      · simp [saveCurrentPosition, hv]
      · simp [loadSavedPosition, jsProp, getField_setField_self, optChain,
          getField, orNull, encodeCamera, jsTruthy]
    | some v =>
      cases v with
      | obj vfields =>
        refine ⟨.obj (setField fields "viewports"
          (.obj (setField vfields K (encodeCamera R)))), ?_, ?_⟩
        · simp [saveCurrentPosition, hv]
        · simp [loadSavedPosition, jsProp, getField_setField_self, optChain,
            orNull, encodeCamera, jsTruthy]
      | null => exact absurd hwf (by simp [wellFormedDoc, hv])
      | bool b => exact absurd hwf (by simp [wellFormedDoc, hv])
      | num n => exact absurd hwf (by simp [wellFormedDoc, hv])
      | str s => exact absurd hwf (by simp [wellFormedDoc, hv])
      | arr xs => exact absurd hwf (by simp [wellFormedDoc, hv])

/-- Witness for claim C2 at a concrete document, key and record. -/
theorem save_load_roundtrip_witness :
    wellFormedDoc (Json.obj [("nodes", Json.arr [])]) = true ∧
    ∃ doc2, saveCurrentPosition (Json.obj [("nodes", Json.arr [])]) "global"
        ⟨10, 20, 3⟩ = some doc2 ∧
      loadSavedPosition doc2 "global" = some (encodeCamera ⟨10, 20, 3⟩) :=
  ⟨rfl, save_load_roundtrip (Json.obj [("nodes", Json.arr [])]) "global"
    ⟨10, 20, 3⟩ rfl⟩

/-- Counterexample to claim C5 as stated: the record persisted by
    `saveCurrentPosition` carries the zoom factor under the field name
    `tZoom`; it has no field named `zoom`. Saving `⟨10, 20, 3⟩` under key
    `global` into the empty document stores an object whose fields are
    `tx`, `ty`, `tZoom`. -/
theorem saved_record_zoom_field_absent :
    saveCurrentPosition (Json.obj []) "global" ⟨10, 20, 3⟩ =
      some (Json.obj [("viewports", Json.obj [("global", Json.obj
        [("tx", Json.num 10), ("ty", Json.num 20),
         ("tZoom", Json.num 3)])])]) ∧
    jsProp (Json.obj [("tx", Json.num 10), ("ty", Json.num 20),
      ("tZoom", Json.num 3)]) "zoom" = none ∧
    jsProp (Json.obj [("tx", Json.num 10), ("ty", Json.num 20),
      ("tZoom", Json.num 3)]) "tZoom" = some (Json.num 3) :=
  ⟨rfl, rfl, rfl⟩

/-- Claim C5 (amended): the viewport record persisted under each key, and
    the record type handled by save and load, has exactly the fields
    `tx`, `ty`, `tZoom` — the zoom factor is stored under the field name
    `tZoom`. Whenever a save succeeds, the entry stored under the key is
    exactly that three-field object, and load returns it. -/
theorem saved_record_fields (doc : Json) (K : String) (R : CameraPosition)
    (doc2 : Json) (h : saveCurrentPosition doc K R = some doc2) :
    vpEntry doc2 K = some (Json.obj [("tx", Json.num R.tx),
      ("ty", Json.num R.ty), ("tZoom", Json.num R.tZoom)]) ∧
    loadSavedPosition doc2 K = some (Json.obj [("tx", Json.num R.tx),
      ("ty", Json.num R.ty), ("tZoom", Json.num R.tZoom)]) := by
  cases doc with
  | obj fields =>
    cases hv : getField fields "viewports" with
    | none =>
      simp only [saveCurrentPosition, hv, Option.some.injEq] at h
      subst h
      constructor <;>
        simp [vpEntry, loadSavedPosition, jsProp, getField_setField_self,
          optChain, getField, orNull, encodeCamera, jsTruthy]
    | some v =>
      cases v with
      | obj vfields =>
        simp only [saveCurrentPosition, hv, Option.some.injEq] at h
        subst h
        constructor <;>
          simp [vpEntry, loadSavedPosition, jsProp, getField_setField_self,
            optChain, orNull, encodeCamera, jsTruthy]
      | null =>
        simp only [saveCurrentPosition, hv, jsTruthy, Bool.false_eq_true,
          if_false, Option.some.injEq] at h
        subst h
        constructor <;>
          simp [vpEntry, loadSavedPosition, jsProp, getField_setField_self,
            optChain, getField, orNull, encodeCamera, jsTruthy]
      | bool b =>
        rcases hb : b with _ | _
        · subst hb
          simp only [saveCurrentPosition, hv, jsTruthy, Bool.false_eq_true,
            if_false, Option.some.injEq] at h
          subst h
          constructor <;>
            simp [vpEntry, loadSavedPosition, jsProp, getField_setField_self,
              optChain, getField, orNull, encodeCamera, jsTruthy]
        · subst hb
          simp [saveCurrentPosition, hv, jsTruthy] at h
      | num n =>
        by_cases hn : n = 0
        · subst hn
          simp only [saveCurrentPosition, hv, jsTruthy] at h
          simp only [bne_self_eq_false, Bool.false_eq_true, if_false,
            Option.some.injEq] at h
          subst h
          constructor <;>
            simp [vpEntry, loadSavedPosition, jsProp, getField_setField_self,
              optChain, getField, orNull, encodeCamera, jsTruthy]
        · have ht : jsTruthy (Json.num n) = true := by
            simp [jsTruthy, hn]
          simp [saveCurrentPosition, hv, ht] at h
      | str s =>
        by_cases hs : s = ""
        · subst hs
          simp only [saveCurrentPosition, hv, jsTruthy] at h
          simp only [bne_self_eq_false, Bool.false_eq_true, if_false,
            Option.some.injEq] at h
          subst h
          constructor <;>
            simp [vpEntry, loadSavedPosition, jsProp, getField_setField_self,
              optChain, getField, orNull, encodeCamera, jsTruthy]
        · have ht : jsTruthy (Json.str s) = true := by
            simp [jsTruthy, hs]
          simp [saveCurrentPosition, hv, ht] at h
      | arr xs =>
        simp [saveCurrentPosition, hv, jsTruthy] at h
  | null => simp [saveCurrentPosition] at h
  | bool b => simp [saveCurrentPosition] at h
  | num n => simp [saveCurrentPosition] at h
  | str s => simp [saveCurrentPosition] at h
  | arr xs => simp [saveCurrentPosition] at h

/-- Witness for the amended claim C5 at a concrete save. -/
theorem saved_record_fields_witness :
    vpEntry (Json.obj [("viewports", Json.obj [("global", Json.obj
      [("tx", Json.num 10), ("ty", Json.num 20), ("tZoom", Json.num 3)])])])
      "global" = some (Json.obj [("tx", Json.num 10), ("ty", Json.num 20),
        ("tZoom", Json.num 3)]) ∧
    loadSavedPosition (Json.obj [("viewports", Json.obj [("global", Json.obj
      [("tx", Json.num 10), ("ty", Json.num 20), ("tZoom", Json.num 3)])])])
      "global" = some (Json.obj [("tx", Json.num 10), ("ty", Json.num 20),
        ("tZoom", Json.num 3)]) :=
  saved_record_fields (Json.obj []) "global" ⟨10, 20, 3⟩ _ rfl

/-- Claim C7: load never raises. It is a total function into
    `Option Json`; malformed document text is caught by the `try`/`catch`
    and yields `none`, and a missing `viewports` structure or missing
    entry for the key also yields `none`. -/
theorem load_malformed_or_missing_none (s : String) (doc : Json)
    (key : String) :
    loadSavedPositionText (.malformed s) key = none ∧
    (optChain (jsProp doc "viewports") key = none →
      loadSavedPositionText (.wellFormed doc) key = none) := by
  refine ⟨rfl, fun h => ?_⟩
  simp [loadSavedPositionText, parseJson, loadSavedPosition, h, orNull]

/-- Witness for claim C7: a malformed text and a document with no
    `viewports` field both load as `none`. -/
theorem load_malformed_or_missing_none_witness :
    loadSavedPositionText (.malformed "not valid json") "global" = none ∧
    loadSavedPositionText (.wellFormed (Json.obj [("nodes", Json.arr [])]))
      "global" = none :=
  ⟨(load_malformed_or_missing_none "not valid json"
      (Json.obj [("nodes", Json.arr [])]) "global").1,
   (load_malformed_or_missing_none "not valid json"
      (Json.obj [("nodes", Json.arr [])]) "global").2 rfl⟩

/-- Claim C10: `loadSavedPosition` filters the stored entry through
    JavaScript truthiness and performs no schema validation: a falsy
    stored value (`null`, `false`, `0`, `""`) loads as `none`, while any
    truthy stored value, of whatever shape, is returned as-is. -/
theorem load_truthy_no_validation (fields vfields : List (String × Json))
    (key : String) (v : Json)
    (hvp : getField fields "viewports" = some (.obj vfields))
    (hv : getField vfields key = some v) :
    (jsTruthy v = false → loadSavedPosition (.obj fields) key = none) ∧
    (jsTruthy v = true → loadSavedPosition (.obj fields) key = some v) := by
  constructor <;> intro h <;>
    simp [loadSavedPosition, jsProp, hvp, optChain, hv, orNull, h]

/-- Witness for claim C10: a stored `0` loads as `none`; a stored empty
    array (not a camera record at all) is returned unvalidated. -/
theorem load_truthy_no_validation_witness :
    loadSavedPosition (Json.obj [("viewports", Json.obj
      [("global", Json.num 0)])]) "global" = none ∧
    loadSavedPosition (Json.obj [("viewports", Json.obj
      [("global", Json.arr [])])]) "global" = some (Json.arr []) :=
  ⟨(load_truthy_no_validation [("viewports", Json.obj
      [("global", Json.num 0)])] [("global", Json.num 0)] "global"
      (Json.num 0) rfl rfl).1 rfl,
   (load_truthy_no_validation [("viewports", Json.obj
      [("global", Json.arr [])])] [("global", Json.arr [])] "global"
      (Json.arr []) rfl rfl).2 rfl⟩

/-! ### Viewport store: delete -/

/-- Claim C3: absence invariant. Deleting the only key of a well-formed
    document's `viewports` mapping removes the top-level `viewports` field
    entirely; the document does not keep an empty mapping. -/
theorem delete_last_key_removes_viewports (fields : List (String × Json))
    (K : String) (v : Json) (hwf : wellFormedDoc (.obj fields) = true)
    (hvp : getField fields "viewports" = some (.obj [(K, v)])) :
    (deleteSavedPosition (.obj fields) K).deleted = true ∧
    jsProp (deleteSavedPosition (.obj fields) K).doc "viewports" = none := by
  have hc : isCameraJson v = true := by
    simpa [wellFormedDoc, hvp] using hwf
  have ht : jsTruthy v = true := jsTruthy_of_isCameraJson v hc
  have hget : getField [(K, v)] K = some v := by simp [getField]
  have hrem : removeField [(K, v)] K = [] := by
    simp [removeField, List.filter_cons, bne]
  simp [deleteSavedPosition, hvp, hget, ht, hrem, jsProp,
    getField_removeField_self]

/-- Witness for claim C3 at a concrete one-key document. -/
theorem delete_last_key_removes_viewports_witness :
    (deleteSavedPosition (Json.obj [("nodes", Json.arr []),
      ("viewports", Json.obj [("global", Json.obj [("tx", Json.num 10),
        ("ty", Json.num 20), ("tZoom", Json.num 3)])])]) "global").deleted
      = true ∧
    jsProp (deleteSavedPosition (Json.obj [("nodes", Json.arr []),
      ("viewports", Json.obj [("global", Json.obj [("tx", Json.num 10),
        ("ty", Json.num 20), ("tZoom", Json.num 3)])])]) "global").doc
      "viewports" = none :=
  delete_last_key_removes_viewports [("nodes", Json.arr []),
    ("viewports", Json.obj [("global", Json.obj [("tx", Json.num 10),
      ("ty", Json.num 20), ("tZoom", Json.num 3)])])] "global"
    (Json.obj [("tx", Json.num 10), ("ty", Json.num 20),
      ("tZoom", Json.num 3)]) rfl rfl

/-- Claim C4: deleting an absent key is a no-op — it returns `false`, the
    document is unchanged, and no write is performed — and delete is
    idempotent: after any delete, deleting the same key again is such a
    no-op returning `false`. -/
theorem delete_noop_idempotent (doc : Json) (K : String) :
    (vpEntry doc K = none →
      deleteSavedPosition doc K = ⟨false, doc, false⟩) ∧
    deleteSavedPosition (deleteSavedPosition doc K).doc K =
      ⟨false, (deleteSavedPosition doc K).doc, false⟩ := by
  constructor
  · intro hnone
    cases doc with
    | obj fields =>
      cases hv : getField fields "viewports" with
      | none => simp [deleteSavedPosition, hv]
      | some v =>
        cases v with
        | obj vfields =>
          have hg : getField vfields K = none := by
            simpa [vpEntry, jsProp, hv, optChain] using hnone
          simp [deleteSavedPosition, hv, hg]
        | null => simp [deleteSavedPosition, hv]
        | bool b => simp [deleteSavedPosition, hv]
        | num n => simp [deleteSavedPosition, hv]
        | str s => simp [deleteSavedPosition, hv]
        | arr xs => simp [deleteSavedPosition, hv]
    | null => rfl
    | bool b => rfl
    | num n => rfl
    | str s => rfl
    | arr xs => rfl
  · cases doc with
    | obj fields =>
      cases hv : getField fields "viewports" with
      | none => simp [deleteSavedPosition, hv]
      | some v =>
        cases v with
        | obj vfields =>
          cases hg : getField vfields K with
          | none => simp [deleteSavedPosition, hv, hg]
          | some w =>
            cases ht : jsTruthy w with
            | false => simp [deleteSavedPosition, hv, hg, ht]
            | true =>
              cases hrem : removeField vfields K with
              | nil =>
                simp [deleteSavedPosition, hv, hg, ht, hrem,
                  getField_removeField_self]
              | cons hd tl =>
                have hnone2 : getField (hd :: tl) K = none := by
                  rw [← hrem]
                  exact getField_removeField_self vfields K
                simp [deleteSavedPosition, hv, hg, ht, hrem,
                  getField_setField_self, hnone2]
        | null => simp [deleteSavedPosition, hv]
        | bool b => simp [deleteSavedPosition, hv]
        | num n => simp [deleteSavedPosition, hv]
        | str s => simp [deleteSavedPosition, hv]
        | arr xs => simp [deleteSavedPosition, hv]
    | null => rfl
    | bool b => rfl
    | num n => rfl
    | str s => rfl
    | arr xs => rfl

/-- Witness for claim C4 at a concrete document with no saved entry. -/
theorem delete_noop_idempotent_witness :
    deleteSavedPosition (Json.obj [("nodes", Json.arr [])]) "global" =
      ⟨false, Json.obj [("nodes", Json.arr [])], false⟩ ∧
    deleteSavedPosition
        (deleteSavedPosition (Json.obj [("nodes", Json.arr [])])
          "global").doc "global" =
      ⟨false, (deleteSavedPosition (Json.obj [("nodes", Json.arr [])])
        "global").doc, false⟩ :=
  ⟨(delete_noop_idempotent (Json.obj [("nodes", Json.arr [])]) "global").1
     rfl,
   (delete_noop_idempotent (Json.obj [("nodes", Json.arr [])]) "global").2⟩

/-! ### Frame condition on writes -/

/-- Claim C6: frame condition. Both a successful save under key `K` and a
    delete of key `K` leave every top-level field other than `viewports`
    unchanged, and leave every viewport entry under a key `Kp ≠ K`
    unchanged. -/
theorem save_delete_frame (doc : Json) (K : String) (R : CameraPosition)
    (f Kp : String) (doc2 : Json) (hf : f ≠ "viewports") (hK : Kp ≠ K) :
    (saveCurrentPosition doc K R = some doc2 →
      jsProp doc2 f = jsProp doc f ∧ vpEntry doc2 Kp = vpEntry doc Kp) ∧
    (jsProp (deleteSavedPosition doc K).doc f = jsProp doc f ∧
      vpEntry (deleteSavedPosition doc K).doc Kp = vpEntry doc Kp) := by
  have hKb : (K == Kp) = false :=
    beq_eq_false_iff_ne.mpr (fun e => hK e.symm)
  constructor
  · intro h
    cases doc with
    | obj fields =>
      cases hv : getField fields "viewports" with
      | none =>
        simp only [saveCurrentPosition, hv, Option.some.injEq] at h
        subst h
        constructor
        · simp only [jsProp]
          exact getField_setField_ne _ _ _ _ hf
        · simp [vpEntry, jsProp, getField_setField_self, optChain, hv,
            getField, hKb]
      | some v =>
        cases v with
        | obj vfields =>
          simp only [saveCurrentPosition, hv, Option.some.injEq] at h
          subst h
          constructor
          · simp only [jsProp]
            exact getField_setField_ne _ _ _ _ hf
          · simp only [vpEntry, jsProp, getField_setField_self, optChain,
              hv]
            exact getField_setField_ne _ _ _ _ hK
        | null =>
          simp only [saveCurrentPosition, hv, jsTruthy, Bool.false_eq_true,
            if_false, Option.some.injEq] at h
          subst h
          constructor
          · simp only [jsProp]
            exact getField_setField_ne _ _ _ _ hf
          · simp [vpEntry, jsProp, getField_setField_self, optChain, hv,
              getField, hKb]
        | bool b =>
          rcases hb : b with _ | _
          · subst hb
            simp only [saveCurrentPosition, hv, jsTruthy,
              Bool.false_eq_true, if_false, Option.some.injEq] at h
            subst h
            constructor
            · simp only [jsProp]
              exact getField_setField_ne _ _ _ _ hf
            · simp [vpEntry, jsProp, getField_setField_self, optChain, hv,
                getField, hKb]
          · subst hb
            simp [saveCurrentPosition, hv, jsTruthy] at h
        | num n =>
          by_cases hn : n = 0
          · subst hn
            simp only [saveCurrentPosition, hv, jsTruthy] at h
            simp only [bne_self_eq_false, Bool.false_eq_true, if_false,
              Option.some.injEq] at h
            subst h
            constructor
            · simp only [jsProp]
              exact getField_setField_ne _ _ _ _ hf
            · simp [vpEntry, jsProp, getField_setField_self, optChain, hv,
                getField, hKb]
          · have ht : jsTruthy (Json.num n) = true := by
              simp [jsTruthy, hn]
            simp [saveCurrentPosition, hv, ht] at h
        | str s =>
          by_cases hs : s = ""
          · subst hs
            simp only [saveCurrentPosition, hv, jsTruthy] at h
            simp only [bne_self_eq_false, Bool.false_eq_true, if_false,
              Option.some.injEq] at h
            subst h
            constructor
            · simp only [jsProp]
              exact getField_setField_ne _ _ _ _ hf
            · simp [vpEntry, jsProp, getField_setField_self, optChain, hv,
                getField, hKb]
          · have ht : jsTruthy (Json.str s) = true := by
              simp [jsTruthy, hs]
            simp [saveCurrentPosition, hv, ht] at h
        | arr xs =>
          simp [saveCurrentPosition, hv, jsTruthy] at h
    | null => simp [saveCurrentPosition] at h
    | bool b => simp [saveCurrentPosition] at h
    | num n => simp [saveCurrentPosition] at h
    | str s => simp [saveCurrentPosition] at h
    | arr xs => simp [saveCurrentPosition] at h
  · cases doc with
    | obj fields =>
      cases hv : getField fields "viewports" with
      | none => simp [deleteSavedPosition, hv]
      | some v =>
        cases v with
        | obj vfields =>
          cases hg : getField vfields K with
          | none => simp [deleteSavedPosition, hv, hg]
          | some w =>
            cases ht : jsTruthy w with
            | false => simp [deleteSavedPosition, hv, hg, ht]
            | true =>
              cases hrem : removeField vfields K with
              | nil =>
                have hKp : getField vfields Kp = none :=
                  getField_eq_none_of_removeField_nil vfields K Kp hrem hK
                constructor
                · simp only [deleteSavedPosition, hv, hg, ht, hrem,
                    List.isEmpty_nil, if_true, jsProp]
                  exact getField_removeField_ne _ _ _ hf
                · simp [deleteSavedPosition, hv, hg, ht, hrem, vpEntry,
                    jsProp, getField_removeField_self, optChain, hKp]
              | cons hd tl =>
                have hKp : getField (hd :: tl) Kp = getField vfields Kp := by
                  rw [← hrem]
                  exact getField_removeField_ne vfields K Kp hK
                have h1 : getField (setField fields "viewports"
                    (Json.obj (hd :: tl))) f = getField fields f :=
                  getField_setField_ne _ _ _ _ hf
                constructor
                · simp [deleteSavedPosition, hv, hg, ht, hrem, jsProp, h1]
                · simp [deleteSavedPosition, hv, hg, ht, hrem, vpEntry,
                    jsProp, getField_setField_self, optChain, hKp]
        | null => simp [deleteSavedPosition, hv]
        | bool b => simp [deleteSavedPosition, hv]
        | num n => simp [deleteSavedPosition, hv]
        | str s => simp [deleteSavedPosition, hv]
        | arr xs => simp [deleteSavedPosition, hv]
    | null => exact ⟨rfl, rfl⟩
    | bool b => exact ⟨rfl, rfl⟩
    | num n => exact ⟨rfl, rfl⟩
    | str s => exact ⟨rfl, rfl⟩
    | arr xs => exact ⟨rfl, rfl⟩

/-- Witness for claim C6: saving under `k1` and deleting `k1` both leave
    the unrelated top-level field `a` and the sibling entry `k2`
    unchanged. -/
theorem save_delete_frame_witness :
    (jsProp (Json.obj [("a", Json.num 7), ("viewports", Json.obj
        [("k1", Json.obj [("tx", Json.num 1), ("ty", Json.num 2),
          ("tZoom", Json.num 3)]), ("k2", Json.obj [("tx", Json.num 4),
          ("ty", Json.num 5), ("tZoom", Json.num 6)])])]) "a" =
      jsProp (Json.obj [("a", Json.num 7), ("viewports", Json.obj
        [("k1", Json.obj [("tx", Json.num 9), ("ty", Json.num 9),
          ("tZoom", Json.num 9)]), ("k2", Json.obj [("tx", Json.num 4),
          ("ty", Json.num 5), ("tZoom", Json.num 6)])])]) "a" ∧
     vpEntry (Json.obj [("a", Json.num 7), ("viewports", Json.obj
        [("k1", Json.obj [("tx", Json.num 1), ("ty", Json.num 2),
          ("tZoom", Json.num 3)]), ("k2", Json.obj [("tx", Json.num 4),
          ("ty", Json.num 5), ("tZoom", Json.num 6)])])]) "k2" =
      vpEntry (Json.obj [("a", Json.num 7), ("viewports", Json.obj
        [("k1", Json.obj [("tx", Json.num 9), ("ty", Json.num 9),
          ("tZoom", Json.num 9)]), ("k2", Json.obj [("tx", Json.num 4),
          ("ty", Json.num 5), ("tZoom", Json.num 6)])])]) "k2") ∧
    (jsProp (deleteSavedPosition (Json.obj [("a", Json.num 7),
        ("viewports", Json.obj [("k1", Json.obj [("tx", Json.num 9),
          ("ty", Json.num 9), ("tZoom", Json.num 9)]), ("k2", Json.obj
          [("tx", Json.num 4), ("ty", Json.num 5),
           ("tZoom", Json.num 6)])])]) "k1").doc "a" =
      jsProp (Json.obj [("a", Json.num 7), ("viewports", Json.obj
        [("k1", Json.obj [("tx", Json.num 9), ("ty", Json.num 9),
          ("tZoom", Json.num 9)]), ("k2", Json.obj [("tx", Json.num 4),
          ("ty", Json.num 5), ("tZoom", Json.num 6)])])]) "a" ∧
     vpEntry (deleteSavedPosition (Json.obj [("a", Json.num 7),
        ("viewports", Json.obj [("k1", Json.obj [("tx", Json.num 9),
          ("ty", Json.num 9), ("tZoom", Json.num 9)]), ("k2", Json.obj
          [("tx", Json.num 4), ("ty", Json.num 5),
           ("tZoom", Json.num 6)])])]) "k1").doc "k2" =
      vpEntry (Json.obj [("a", Json.num 7), ("viewports", Json.obj
        [("k1", Json.obj [("tx", Json.num 9), ("ty", Json.num 9),
          ("tZoom", Json.num 9)]), ("k2", Json.obj [("tx", Json.num 4),
          ("ty", Json.num 5), ("tZoom", Json.num 6)])])]) "k2") :=
  ⟨(save_delete_frame (Json.obj [("a", Json.num 7), ("viewports", Json.obj
      [("k1", Json.obj [("tx", Json.num 9), ("ty", Json.num 9),
        ("tZoom", Json.num 9)]), ("k2", Json.obj [("tx", Json.num 4),
        ("ty", Json.num 5), ("tZoom", Json.num 6)])])]) "k1" ⟨1, 2, 3⟩
      "a" "k2" (Json.obj [("a", Json.num 7), ("viewports", Json.obj
      [("k1", Json.obj [("tx", Json.num 1), ("ty", Json.num 2),
        ("tZoom", Json.num 3)]), ("k2", Json.obj [("tx", Json.num 4),
        ("ty", Json.num 5), ("tZoom", Json.num 6)])])])
      (by decide) (by decide)).1 rfl,
   (save_delete_frame (Json.obj [("a", Json.num 7), ("viewports", Json.obj
      [("k1", Json.obj [("tx", Json.num 9), ("ty", Json.num 9),
        ("tZoom", Json.num 9)]), ("k2", Json.obj [("tx", Json.num 4),
        ("ty", Json.num 5), ("tZoom", Json.num 6)])])]) "k1" ⟨1, 2, 3⟩
      "a" "k2" Json.null (by decide) (by decide)).2⟩

/-! ### Camera applier -/

/-- Claim C9 (code bug evidence): on a canvas whose `zoomBy` call throws,
    the exception raised during the apply sequence leaves the
    animation-frame callback uncaught — it does not end in the
    `caughtNotice` outcome the claim requires, because the `try`/`catch`
    at src/main.ts lines 448-461 wraps only the synchronous
    `requestAnimationFrame` scheduling call, which returns before the
    callback body runs. -/
theorem restore_apply_exception_escapes :
    restoreApplyOutcome zoomByThrowingCanvas ⟨10, 20, 3⟩ =
      ApplyOutcome.uncaught ApplyStep.zoomBy := rfl

end CanvasViewport
